import Mathlib

/-!
Verification of the EPG fetch orchestrator (`epg_fetcher.py`, `api/api-server.py`)
against its natural-language specification.

The Python code is shallowly embedded: the filesystem is an explicit state
(`FS`), the external world (git, npm, the grab tool, docker) is an
environment record (`Env`) fixing exit codes, captured output and the files
each external run produces, and every side-effecting operation returns its
observable side effects as a list of `Event`s together with the updated
filesystem.  Python exceptions become the `PyError` side of `Except`.
-/

deriving instance DecidableEq for Except

/-! ### String and path helpers (models of the Python primitives used) -/

/-- Model of Python `str.startswith`: prefix test on the character data. -/
def strStartsWith (s p : String) : Bool := p.data.isPrefixOf s.data

/-- Test whether a string ends with the path separator, as used by
`os.path.join` (`path.endswith('/')`). -/
def endsWithSlash (s : String) : Bool := s.data.getLast? == some '/'

/-- Model of POSIX `os.path.join a b`: an absolute `b` wins; otherwise the
parts are joined, inserting `/` unless `a` is empty or already ends in `/`. -/
def pathJoin (a b : String) : String :=
  if strStartsWith b "/" then b
  else if a == "" || endsWithSlash a then a ++ b
  else a ++ ("/" ++ b)

/-- `p` lies inside the directory tree rooted at `root`: it is `root` itself
or has `root ++ "/"` as a proper path prefix.  This is the correct
"is under the ephemeral root" notion the spec's safety invariant speaks of. -/
def isUnderDir (root p : String) : Bool := p == root || strStartsWith p (root ++ "/")

/-- Model of `os.path.abspath` relative to the process working directory. -/
def abspath (cwd p : String) : String := if strStartsWith p "/" then p else pathJoin cwd p

/-! ### XML element model

Mirrors the fragment of `xml.etree.ElementTree` the code uses: an element has
a tag, attributes (in insertion order), optional text, and children.  Tails
are not modelled; they never carry channel data. -/

inductive XElem where
  | node (tag : String) (attrs : List (String × String)) (text : Option String) (children : List XElem)
deriving Repr

/-! ### Channel model -/

/-- Embedding of `EPGChannel`. -/
structure EPGChannel where
  site : String
  lang : String
  xmltv_id : String
  site_id : String
  name : String
deriving Repr, DecidableEq

/-- Embedding of `EPGChannel.to_xml_element`: a `channel` element with the
four attributes set in source order and the display name as text. -/
def EPGChannel.to_xml_element (c : EPGChannel) : XElem :=
  .node "channel"
    [("site", c.site), ("lang", c.lang), ("xmltv_id", c.xmltv_id), ("site_id", c.site_id)]
    (some c.name) []

/-! ### Python errors -/

/-- The Python exceptions the embedded code can raise. -/
inductive PyError where
  | valueError (msg : String)
  | calledProcessError (returncode : Nat) (output : Option String)
  | fileNotFoundError (path : String)
  | keyError (key : String)
deriving Repr, DecidableEq

/-- Boolean success test on an `Except` result. -/
def exceptIsOk {ε α : Type} : Except ε α → Bool
  | .ok _ => true
  | .error _ => false

/-- Embedding of `EPGChannel.from_dict`: each required key is read from the
dictionary in source order; a missing key raises `KeyError`. -/
def dictGet (d : List (String × String)) (k : String) : Except PyError String :=
  match d.lookup k with
  | some v => .ok v
  | none => .error (.keyError k)

/-- Embedding of `EPGChannel.from_dict` (`data['site']`, `data['lang']`,
`data['xmltv_id']`, `data['site_id']`, `data['name']` in that order). -/
def EPGChannel.from_dict (d : List (String × String)) : Except PyError EPGChannel := do
  let site ← dictGet d "site"
  let lang ← dictGet d "lang"
  let xmltv_id ← dictGet d "xmltv_id"
  let site_id ← dictGet d "site_id"
  let name ← dictGet d "name"
  return { site := site, lang := lang, xmltv_id := xmltv_id, site_id := site_id, name := name }

/-! ### Filesystem model -/

/-- Abstract filesystem: a set of existing directories and a map from file
paths to sizes, both as lists (first match wins for sizes). -/
structure FS where
  dirs : List String
  files : List (String × Nat)
deriving Repr, DecidableEq

/-- Model of `os.path.exists`. -/
def FS.existsPath (fs : FS) (p : String) : Bool :=
  fs.dirs.contains p || (fs.files.map Prod.fst).contains p

/-- Model of `os.makedirs(p, exist_ok=True)`. -/
def FS.mkdir (fs : FS) (p : String) : FS :=
  if fs.dirs.contains p then fs else { fs with dirs := p :: fs.dirs }

/-- Record a file write of a given size (most recent write shadows). -/
def FS.writeFile (fs : FS) (p : String) (sz : Nat) : FS :=
  { fs with files := (p, sz) :: fs.files }

/-- Files created by an external process run. -/
def FS.addFiles (fs : FS) (l : List (String × Nat)) : FS :=
  { fs with files := l ++ fs.files }

/-- Size of a file, if present. -/
def FS.fileSize (fs : FS) (p : String) : Option Nat :=
  fs.files.lookup p

/-- Model of `shutil.rmtree root`: removes `root` and everything below it. -/
def FS.removeTree (fs : FS) (root : String) : FS :=
  { dirs := fs.dirs.filter (fun q => !(isUnderDir root q)),
    files := fs.files.filter (fun qs => !(isUnderDir root qs.1)) }

/-! ### External environment and observable events -/

/-- The external world an `EPGFetcher` run interacts with: the process
working directory, the exit codes and captured output of each external
command, and the files each external run leaves on disk. -/
structure Env where
  cwd : String
  cloneExit : Nat
  cloneOutput : String
  npmInstallExit : Nat
  npmInstallOutput : String
  grabExit : Nat
  grabOutput : String
  grabFiles : List (String × Nat)
  dockerExit : Nat
  dockerFiles : List (String × Nat)
deriving Repr, DecidableEq

/-- Observable side effects of the embedded code, in order of occurrence. -/
inductive Event where
  | makedirs (path : String)
  | gitClone (dest : String)
  | npmInstall (cwd : String)
  | writeChannels (path : String)
  | runGrab (cwd : String) (cmd : List String)
  | dockerRun (cmd : List String)
  | rmtree (path : String)
deriving Repr, DecidableEq

/-! ### The fetcher -/

/-- Embedding of the `EPGFetcher` object state.  `setup_done` is the
`_setup_done` flag. -/
structure EPGFetcher where
  work_dir : String
  epg_repo_path : String
  channels_file : String
  setup_done : Bool
deriving Repr, DecidableEq

/-- Resolution of `work_dir or tempfile.mkdtemp(prefix='epg_')`: Python `or`
falls through on a falsy (empty) string.  `mkdtempDir` stands for the fresh
directory name `mkdtemp` would return (a fresh path under `/tmp`). -/
def resolveWorkDir : Option String → String → String
  | some w, tmp => if w == "" then tmp else w
  | none, tmp => tmp

/-- Embedding of `EPGFetcher.__init__`. -/
def EPGFetcher.init (work_dir : Option String) (mkdtempDir : String) : EPGFetcher :=
  let wd := resolveWorkDir work_dir mkdtempDir
  { work_dir := wd
    epg_repo_path := pathJoin wd "epg"
    channels_file := pathJoin wd "channels.xml"
    setup_done := false }

/-- Outcome of a stateful step: Python result or exception, the fetcher and
filesystem after the step, and the side effects in order. -/
structure SetupOutcome where
  result : Except PyError Unit
  fetcher : EPGFetcher
  fs : FS
  events : List Event
deriving Repr

/-- The `npm install` tail of `EPGFetcher.setup` (`check=True`,
`capture_output=True`). -/
def setupNpm (f : EPGFetcher) (fs : FS) (env : Env) (evs : List Event) : SetupOutcome :=
  let evs1 := evs ++ [Event.npmInstall f.epg_repo_path]
  if env.npmInstallExit = 0 then
    { result := .ok (), fetcher := { f with setup_done := true }, fs := fs, events := evs1 }
  else
    { result := .error (.calledProcessError env.npmInstallExit (some env.npmInstallOutput))
      fetcher := f, fs := fs, events := evs1 }

/-- Embedding of `EPGFetcher.setup`: early return when `_setup_done`;
otherwise `os.makedirs(work_dir)`, a `git clone` only when the repo path does
not exist, then `npm install`. -/
def EPGFetcher.setup (f : EPGFetcher) (fs : FS) (env : Env) : SetupOutcome :=
  if f.setup_done then { result := .ok (), fetcher := f, fs := fs, events := [] }
  else
    let fs1 := fs.mkdir f.work_dir
    let ev1 := [Event.makedirs f.work_dir]
    if fs1.existsPath f.epg_repo_path then
      setupNpm f fs1 env ev1
    else
      let ev2 := ev1 ++ [Event.gitClone f.epg_repo_path]
      if env.cloneExit = 0 then
        setupNpm f (fs1.mkdir f.epg_repo_path) env ev2
      else
        { result := .error (.calledProcessError env.cloneExit (some env.cloneOutput))
          fetcher := f, fs := fs1, events := ev2 }

/-! ### The channel-list document -/

/-- Embedding of the body of `EPGFetcher.create_channels_file` before
indentation: root element `channels` with one child per channel, in order. -/
def createChannelsRoot (channels : List EPGChannel) : XElem :=
  .node "channels" [] none (channels.map EPGChannel.to_xml_element)

/-- Effect of `ET.indent(tree, space='  ')` on the modelled fields: an
element with children gets indentation text; leaf elements keep their text.
(The tails `indent` also sets are not modelled; they carry no channel data.) -/
def indentDoc : XElem → XElem
  | .node t a txt cs => if cs.isEmpty then .node t a txt cs else .node t a (some "\x0a  ") cs

/-- The channel-list document `create_channels_file` writes. -/
def channelsDocOf (channels : List EPGChannel) : XElem :=
  indentDoc (createChannelsRoot channels)

/-- Effect of writing an element's text to XML and reading it back: empty
text serializes to a self-closing element, which parses back as no text. -/
def normText : Option String → Option String
  | some s => if s == "" then none else some s
  | none => none

mutual

/-- Write-then-parse normalization of an element tree: the identity except
that empty text is lost (see `normText`).  Attribute values and non-empty
text round-trip exactly through the XML serializer. -/
def normTree : XElem → XElem
  | .node t a txt cs => .node t a (normText txt) (normTrees cs)

/-- Write-then-parse normalization of a list of children. -/
def normTrees : List XElem → List XElem
  | [] => []
  | x :: xs => normTree x :: normTrees xs

end

/-- Modelled from the spec: the repository itself contains no reader for the
channel-list document (the external scraper toolkit consumes it), so the
reader is taken from the spec's description of the format — a `channel`
entry's fields are its `site`, `lang`, `xmltv_id`, `site_id` attributes and
its text content is the display name. -/
def parseChannel (e : XElem) : Option EPGChannel :=
  match e with
  | .node "channel" attrs txt _ =>
    match attrs.lookup "site", attrs.lookup "lang", attrs.lookup "xmltv_id",
          attrs.lookup "site_id", txt with
    | some s, some l, some x, some si, some n =>
      some { site := s, lang := l, xmltv_id := x, site_id := si, name := n }
    | _, _, _, _, _ => none
  | _ => none

/-- Modelled from the spec: read the whole channel-list document back — the
root must be `channels` and every child must be a well-formed channel. -/
def parseChannelsDoc (root : XElem) : Option (List EPGChannel) :=
  match root with
  | .node "channels" _ _ children => children.mapM parseChannel
  | _ => none

/-! ### Fetch parameters -/

/-- Python truthiness of an optional string (`if site:`). -/
def truthyStr : Option String → Bool
  | none => false
  | some s => !(s == "")

/-- Python truthiness of an optional channel list (`elif channels:`). -/
def truthyList : Option (List EPGChannel) → Bool
  | none => false
  | some l => !l.isEmpty

/-- Python truthiness of an optional integer (`if days:`). -/
def truthyInt : Option Int → Bool
  | none => false
  | some n => !(n == 0)

/-- The parameters of `EPGFetcher.fetch`. -/
structure FetchParams where
  site : Option String
  channels : Option (List EPGChannel)
  output_file : String
  days : Option Int
  lang : Option String
  max_connections : Int
  timeout : Int
  delay : Int
  gzip : Bool
deriving Repr, DecidableEq

/-- The defaults of the `EPGFetcher.fetch` signature: `output_file='guide.xml'`,
`days=None`, `lang=None`, `max_connections=1`, `timeout=30000`, `delay=0`,
`gzip=False`. -/
def defaultFetchParams : FetchParams :=
  { site := none, channels := none, output_file := "guide.xml", days := none,
    lang := none, max_connections := 1, timeout := 30000, delay := 0, gzip := false }

/-- The message of the `ValueError` `fetch` raises when neither discriminant
is given. -/
def valueErrorMsg : String := "Either \x27site\x27 or \x27channels\x27 must be provided"

/-! ### fetch -/

/-- Outcome of `fetch` / `fetch_with_docker`: the returned path or raised
exception, the fetcher and filesystem after the call, and the side effects. -/
structure FetchOutcome where
  result : Except PyError String
  fetcher : EPGFetcher
  fs : FS
  events : List Event
deriving Repr

/-- The tail of `EPGFetcher.fetch` after the site/channels branch: append the
remaining flags, run `npm run grab` in the repo checkout, then check that the
joined output path exists (`os.path.exists` — the size is never inspected). -/
def fetchRun (f : EPGFetcher) (fs : FS) (env : Env) (p : FetchParams)
    (cmd0 : List String) (evs : List Event) : FetchOutcome :=
  let cmd := cmd0 ++ ["--output", p.output_file]
    ++ (if truthyInt p.days then ["--days", toString (p.days.getD 0)] else [])
    ++ (if truthyStr p.lang then ["--lang", p.lang.getD ""] else [])
    ++ ["--maxConnections", toString p.max_connections,
        "--timeout", toString p.timeout, "--delay", toString p.delay]
    ++ (if p.gzip then ["--gzip"] else [])
  let evs1 := evs ++ [Event.runGrab f.epg_repo_path cmd]
  let fs1 := fs.addFiles env.grabFiles
  if env.grabExit = 0 then
    let output_path := pathJoin f.epg_repo_path p.output_file
    if fs1.existsPath output_path then
      { result := .ok output_path, fetcher := f, fs := fs1, events := evs1 }
    else
      { result := .error (.fileNotFoundError output_path), fetcher := f, fs := fs1, events := evs1 }
  else
    { result := .error (.calledProcessError env.grabExit (some env.grabOutput))
      fetcher := f, fs := fs1, events := evs1 }

/-- Embedding of `EPGFetcher.fetch`: `self.setup()` runs first; only then is
the site/channels discriminant examined (`if site: ... elif channels: ...
else: raise ValueError`), the command built, the tool run, and the output
path checked. -/
def EPGFetcher.fetch (f : EPGFetcher) (fs : FS) (env : Env) (p : FetchParams) : FetchOutcome :=
  let so := f.setup fs env
  match so.result with
  | .error e => { result := .error e, fetcher := so.fetcher, fs := so.fs, events := so.events }
  | .ok _ =>
    let f1 := so.fetcher
    let base := ["npm", "run", "grab", "---"]
    if truthyStr p.site then
      fetchRun f1 so.fs env p (base ++ ["--site", p.site.getD ""]) so.events
    else if truthyList p.channels then
      let fs2 := so.fs.writeFile f1.channels_file 1
      fetchRun f1 fs2 env p (base ++ ["--channels", f1.channels_file])
        (so.events ++ [Event.writeChannels f1.channels_file])
    else
      { result := .error (.valueError valueErrorMsg), fetcher := f1, fs := so.fs, events := so.events }

/-! ### fetch_with_docker -/

/-- The parameters of `EPGFetcher.fetch_with_docker`. -/
structure DockerParams where
  max_connections : Int
  days : Option Int
  gzip : Bool
  timeout : Int
  delay : Int
  image : String
deriving Repr, DecidableEq

/-- The defaults of the `fetch_with_docker` signature. -/
def defaultDockerParams : DockerParams :=
  { max_connections := 1, days := none, gzip := false, timeout := 30000, delay := 0,
    image := "ghcr.io/iptv-org/epg:master" }

/-- Python `str(b).lower()` for a boolean. -/
def pyBoolStr (b : Bool) : String := if b then "true" else "false"

/-- The docker command line `fetch_with_docker` builds: read-only channel
mount, read-write output mount, tunables as environment variables, `DAYS`
only when truthy, then the image. -/
def buildDockerCmd (cwd channels_file output_dir : String) (p : DockerParams) : List String :=
  ["docker", "run", "--rm",
   "-v", abspath cwd channels_file ++ ":/epg/channels.xml:ro",
   "-v", abspath cwd output_dir ++ ":/epg/output",
   "-e", "MAX_CONNECTIONS=" ++ toString p.max_connections,
   "-e", "TIMEOUT=" ++ toString p.timeout,
   "-e", "DELAY=" ++ toString p.delay,
   "-e", "GZIP=" ++ pyBoolStr p.gzip,
   "-e", "RUN_AT_STARTUP=true"]
  ++ (if truthyInt p.days then ["-e", "DAYS=" ++ toString (p.days.getD 0)] else [])
  ++ [p.image]

/-- Embedding of `EPGFetcher.fetch_with_docker`: missing channels file fails
first, then the output directory is created, then the container runs
(`subprocess.run(cmd, check=True)` — output is NOT captured), then the
output path is checked for existence. -/
def EPGFetcher.fetch_with_docker (f : EPGFetcher) (fs : FS) (env : Env)
    (channels_file output_dir : String) (p : DockerParams) : FetchOutcome :=
  if fs.existsPath channels_file then
    let fs1 := fs.mkdir output_dir
    let cmd := buildDockerCmd env.cwd channels_file output_dir p
    let evs := [Event.makedirs output_dir, Event.dockerRun cmd]
    let fs2 := fs1.addFiles env.dockerFiles
    if env.dockerExit = 0 then
      let output_file := pathJoin output_dir "guide.xml"
      if fs2.existsPath output_file then
        { result := .ok output_file, fetcher := f, fs := fs2, events := evs }
      else
        { result := .error (.fileNotFoundError output_file), fetcher := f, fs := fs2, events := evs }
    else
      { result := .error (.calledProcessError env.dockerExit none)
        fetcher := f, fs := fs2, events := evs }
  else
    { result := .error (.fileNotFoundError channels_file), fetcher := f, fs := fs, events := [] }

/-! ### cleanup -/

/-- Embedding of `EPGFetcher.cleanup`: remove the working directory tree iff
it exists and its path STRING starts with `'/tmp'` (`str.startswith`). -/
def EPGFetcher.cleanup (f : EPGFetcher) (fs : FS) : FS × List Event :=
  if fs.existsPath f.work_dir && strStartsWith f.work_dir "/tmp" then
    (fs.removeTree f.work_dir, [Event.rmtree f.work_dir])
  else (fs, [])

/-! ### API-layer defaults (`api/api-server.py`) -/

/-- `DEFAULT_DAYS` of the API server. -/
def DEFAULT_DAYS : Int := 3

/-- `DEFAULT_MAX_CONNECTIONS` of the API server. -/
def DEFAULT_MAX_CONNECTIONS : Int := 5

/-- `data.get('days', DEFAULT_DAYS)` in the fetch route. -/
def apiDays (body : Option Int) : Int := body.getD DEFAULT_DAYS

/-- `data.get('max_connections', DEFAULT_MAX_CONNECTIONS)` in the fetch route. -/
def apiMaxConnections (body : Option Int) : Int := body.getD DEFAULT_MAX_CONNECTIONS

/-! ### Helper lemmas about the embedded operations -/

theorem setupNpm_preserves_paths (f : EPGFetcher) (fs : FS) (env : Env) (evs : List Event) :
    (setupNpm f fs env evs).fetcher.work_dir = f.work_dir ∧
    (setupNpm f fs env evs).fetcher.epg_repo_path = f.epg_repo_path ∧
    (setupNpm f fs env evs).fetcher.channels_file = f.channels_file := by
  unfold setupNpm
  dsimp only
  split <;> simp

theorem setup_preserves_paths (f : EPGFetcher) (fs : FS) (env : Env) :
    (f.setup fs env).fetcher.work_dir = f.work_dir ∧
    (f.setup fs env).fetcher.epg_repo_path = f.epg_repo_path ∧
    (f.setup fs env).fetcher.channels_file = f.channels_file := by
  unfold EPGFetcher.setup
  dsimp only
  split
  · simp
  · split
    · exact setupNpm_preserves_paths ..
    · split
      · exact setupNpm_preserves_paths ..
      · simp

theorem setup_ok_of_exits (f : EPGFetcher) (fs : FS) (env : Env)
    (hc : env.cloneExit = 0) (hn : env.npmInstallExit = 0) :
    (f.setup fs env).result = .ok () := by
  unfold EPGFetcher.setup setupNpm
  dsimp only
  split
  · rfl
  · split <;> simp_all

theorem existsPath_mkdir_self (fs : FS) (p : String) :
    (fs.mkdir p).existsPath p = true := by
  unfold FS.mkdir FS.existsPath
  split
  · simp_all [List.elem_iff]
  · simp [List.elem_iff]

theorem existsPath_mkdir_of (fs : FS) (p q : String) (h : fs.existsPath q = true) :
    (fs.mkdir p).existsPath q = true := by
  unfold FS.mkdir
  unfold FS.existsPath at *
  split
  · exact h
  · simp_all [List.elem_iff]
    tauto

theorem existsPath_addFiles_of (fs : FS) (l : List (String × Nat)) (q : String)
    (h : fs.existsPath q = true) :
    (fs.addFiles l).existsPath q = true := by
  unfold FS.addFiles
  unfold FS.existsPath at *
  simp_all [List.elem_iff]
  tauto

theorem existsPath_writeFile_of (fs : FS) (p : String) (sz : Nat) (q : String)
    (h : fs.existsPath q = true) :
    (fs.writeFile p sz).existsPath q = true := by
  unfold FS.writeFile
  unfold FS.existsPath at *
  simp_all [List.elem_iff]
  tauto

theorem existsPath_removeTree_of_under (fs : FS) (root q : String)
    (h : isUnderDir root q = true) :
    (fs.removeTree root).existsPath q = false := by
  unfold FS.removeTree FS.existsPath
  simp only [Bool.or_eq_false_iff]
  constructor
  · simp only [List.elem_iff, List.contains, List.mem_filter]
    by_contra hc
    simp only [Bool.not_eq_false] at hc
    rw [List.elem_iff] at hc
    rcases List.mem_filter.mp hc with ⟨_, hpred⟩
    simp [h] at hpred
  · by_contra hc
    simp only [Bool.not_eq_false] at hc
    rw [List.elem_iff] at hc
    rcases List.mem_map.mp hc with ⟨⟨a, b⟩, hab, hq⟩
    rcases List.mem_filter.mp hab with ⟨_, hpred⟩
    subst hq
    simp [h] at hpred

/-! ### Claim C7 — request-field validation of the channel constructor -/

/-- C7 counterexample: `from_dict` accepts a dictionary whose required
fields are all present but empty strings, returning a channel instead of
failing — refuting the claim that construction fails whenever a required
field "is absent or is an empty string". -/
theorem from_dict_accepts_empty_fields_cex :
    EPGChannel.from_dict
        [("site", ""), ("lang", ""), ("xmltv_id", ""), ("site_id", ""), ("name", "")]
      = .ok { site := "", lang := "", xmltv_id := "", site_id := "", name := "" } := by
  decide

/-- C7 (amended): constructing a channel from request fields fails (with
`KeyError`) exactly when one of the five required keys is absent from the
dictionary; present values are taken as-is — an empty string is accepted,
not rejected.  The construction has no side effects (it is a pure
function of the dictionary). -/
theorem from_dict_fails_iff_key_missing (d : List (String × String)) :
    (exceptIsOk (EPGChannel.from_dict d)
      = ((d.lookup "site").isSome && (d.lookup "lang").isSome && (d.lookup "xmltv_id").isSome
        && (d.lookup "site_id").isSome && (d.lookup "name").isSome))
    ∧ (∀ s l x si n, d.lookup "site" = some s → d.lookup "lang" = some l →
        d.lookup "xmltv_id" = some x → d.lookup "site_id" = some si → d.lookup "name" = some n →
        EPGChannel.from_dict d
          = .ok { site := s, lang := l, xmltv_id := x, site_id := si, name := n }) := by
  constructor
  · cases hs : d.lookup "site" <;> cases hl : d.lookup "lang" <;>
      cases hx : d.lookup "xmltv_id" <;> cases hi : d.lookup "site_id" <;>
      cases hn : d.lookup "name" <;>
      simp [EPGChannel.from_dict, dictGet, hs, hl, hx, hi, hn, exceptIsOk, Except.bind, bind, pure, Except.pure]
  · intro s l x si n hs hl hx hi hn
    simp [EPGChannel.from_dict, dictGet, hs, hl, hx, hi, hn, Except.bind, bind, pure, Except.pure]

/-- C7 witness: a fully-populated dictionary constructs the channel. -/
theorem from_dict_fails_iff_key_missing_witness :
    EPGChannel.from_dict
        [("site", "a.com"), ("lang", "en"), ("xmltv_id", "A.tv"), ("site_id", "1"), ("name", "A")]
      = .ok { site := "a.com", lang := "en", xmltv_id := "A.tv", site_id := "1", name := "A" } :=
  (from_dict_fails_iff_key_missing
      [("site", "a.com"), ("lang", "en"), ("xmltv_id", "A.tv"), ("site_id", "1"), ("name", "A")]).2
    "a.com" "en" "A.tv" "1" "A" (by decide) (by decide) (by decide) (by decide) (by decide)

/-! ### Claim C4 — cleanup safety guard -/

/-- C4: the cleanup guard is the string test `work_dir.startswith('/tmp')`,
not a directory-containment test.  A fetcher constructed with the
caller-supplied working directory `/tmpfoo` — which is NOT under the
ephemeral root `/tmp` — passes the guard, and cleanup removes the whole
`/tmpfoo` tree, violating the hard safety invariant that nothing outside
the ephemeral-workspace root is ever deleted. -/
theorem cleanup_escapes_tmp_root :
    ((EPGFetcher.init (some "/tmpfoo") "").cleanup
        { dirs := ["/tmpfoo"], files := [("/tmpfoo/data.txt", 7)] }).2
      = [Event.rmtree "/tmpfoo"] ∧
    ((EPGFetcher.init (some "/tmpfoo") "").cleanup
        { dirs := ["/tmpfoo"], files := [("/tmpfoo/data.txt", 7)] }).1.existsPath "/tmpfoo"
      = false ∧
    ((EPGFetcher.init (some "/tmpfoo") "").cleanup
        { dirs := ["/tmpfoo"], files := [("/tmpfoo/data.txt", 7)] }).1.existsPath "/tmpfoo/data.txt"
      = false ∧
    isUnderDir "/tmp" "/tmpfoo" = false := by
  decide

/-! ### Claim C8 — default parameters -/

/-- C8: the defaults when optional fetch parameters are omitted.  At the
library layer (`EPGFetcher.fetch` signature): `max_connections = 1`,
`timeout = 30000`, `delay = 0`, `gzip = false`, and `days` is `None` — so
the `--days` flag is simply omitted.  At the API layer: `days` defaults to
`DEFAULT_DAYS = 3` and `max_connections` to `DEFAULT_MAX_CONNECTIONS = 5`.
The final conjunct evaluates a default-parameter site fetch and shows the
exact command line: defaults flow through, no `--days`, no `--gzip`. -/
theorem fetch_default_parameters :
    DEFAULT_DAYS = 3 ∧ apiDays none = 3 ∧
    defaultFetchParams.max_connections = 1 ∧
    DEFAULT_MAX_CONNECTIONS = 5 ∧ apiMaxConnections none = 5 ∧
    defaultFetchParams.timeout = 30000 ∧
    defaultFetchParams.delay = 0 ∧
    defaultFetchParams.gzip = false ∧
    defaultFetchParams.days = none ∧
    (EPGFetcher.fetch
        { work_dir := "/w", epg_repo_path := "/w/epg", channels_file := "/w/channels.xml",
          setup_done := true }
        { dirs := [], files := [] }
        { cwd := "/", cloneExit := 0, cloneOutput := "", npmInstallExit := 0,
          npmInstallOutput := "", grabExit := 0, grabOutput := "",
          grabFiles := [("/w/epg/guide.xml", 9)], dockerExit := 0, dockerFiles := [] }
        { defaultFetchParams with site := some "example.com" }).events
      = [Event.runGrab "/w/epg"
          ["npm", "run", "grab", "---", "--site", "example.com", "--output", "guide.xml",
           "--maxConnections", "1", "--timeout", "30000", "--delay", "0"]] := by
  decide

/-! ### Claim C1 — validation order -/

/-- C1 counterexample: a fetch whose request populates neither discriminant
does raise the validation error, but only AFTER the whole setup ran as a
side effect of the call: the workspace directory was created, the tool was
cloned and dependencies were installed — refuting "no directory is
allocated and no setup is performed".  Moreover a request populating BOTH
discriminants does not fail validation at all: it proceeds using the site. -/
theorem fetch_unvalidated_request_still_runs_setup_cex :
    ((EPGFetcher.init (some "/w") "").fetch { dirs := [], files := [] }
        { cwd := "/", cloneExit := 0, cloneOutput := "", npmInstallExit := 0,
          npmInstallOutput := "", grabExit := 0, grabOutput := "", grabFiles := [],
          dockerExit := 0, dockerFiles := [] }
        defaultFetchParams).result
      = .error (.valueError valueErrorMsg) ∧
    ((EPGFetcher.init (some "/w") "").fetch { dirs := [], files := [] }
        { cwd := "/", cloneExit := 0, cloneOutput := "", npmInstallExit := 0,
          npmInstallOutput := "", grabExit := 0, grabOutput := "", grabFiles := [],
          dockerExit := 0, dockerFiles := [] }
        defaultFetchParams).events
      = [Event.makedirs "/w", Event.gitClone "/w/epg", Event.npmInstall "/w/epg"] ∧
    ((EPGFetcher.init (some "/w") "").fetch { dirs := [], files := [] }
        { cwd := "/", cloneExit := 0, cloneOutput := "", npmInstallExit := 0,
          npmInstallOutput := "", grabExit := 0, grabOutput := "", grabFiles := [],
          dockerExit := 0, dockerFiles := [] }
        defaultFetchParams).fs.existsPath "/w" = true ∧
    ((EPGFetcher.init (some "/w") "").fetch { dirs := [], files := [] }
        { cwd := "/", cloneExit := 0, cloneOutput := "", npmInstallExit := 0,
          npmInstallOutput := "", grabExit := 0, grabOutput := "",
          grabFiles := [("/w/epg/guide.xml", 3)], dockerExit := 0, dockerFiles := [] }
        { defaultFetchParams with
            site := some "a.com"
            channels := some [{ site := "a.com", lang := "en", xmltv_id := "A.tv",
                                site_id := "1", name := "A" }] }).result
      = .ok "/w/epg/guide.xml" := by
  decide

/-! ### Claim C2 — artifact existence (not size) check -/

/-- C2 counterexample: with a stub tool that exits 0 and leaves an EMPTY
(zero-byte) output file, `fetch` returns the output path as success — the
code checks only `os.path.exists`, never the size — refuting the claim
that an empty artifact fails with `ArtifactMissingError`. -/
theorem fetch_returns_empty_artifact_cex :
    (EPGFetcher.fetch
        { work_dir := "/w", epg_repo_path := "/w/epg", channels_file := "/w/channels.xml",
          setup_done := true }
        { dirs := [], files := [] }
        { cwd := "/", cloneExit := 0, cloneOutput := "", npmInstallExit := 0,
          npmInstallOutput := "", grabExit := 0, grabOutput := "",
          grabFiles := [("/w/epg/guide.xml", 0)], dockerExit := 0, dockerFiles := [] }
        { defaultFetchParams with site := some "example.com" }).result
      = .ok "/w/epg/guide.xml" ∧
    (EPGFetcher.fetch
        { work_dir := "/w", epg_repo_path := "/w/epg", channels_file := "/w/channels.xml",
          setup_done := true }
        { dirs := [], files := [] }
        { cwd := "/", cloneExit := 0, cloneOutput := "", npmInstallExit := 0,
          npmInstallOutput := "", grabExit := 0, grabOutput := "",
          grabFiles := [("/w/epg/guide.xml", 0)], dockerExit := 0, dockerFiles := [] }
        { defaultFetchParams with site := some "example.com" }).fs.fileSize "/w/epg/guide.xml"
      = some 0 := by
  decide

/-! ### Claim C3 — exit-code contract of the invocation layer -/

/-- C3 counterexample: the container-mode invocation runs the process
WITHOUT capturing its output (`subprocess.run(cmd, check=True)`), so when
the container exits 1 the raised error carries no captured output at all
(`output = none`) — refuting the claim that for every invocation a
non-zero exit raises an error whose diagnostic payload contains the
captured output of the process. -/
theorem docker_error_carries_no_output_cex :
    ((EPGFetcher.init (some "/w") "").fetch_with_docker
        { dirs := ["/w"], files := [("/cf.xml", 5)] }
        { cwd := "/", cloneExit := 0, cloneOutput := "", npmInstallExit := 0,
          npmInstallOutput := "", grabExit := 0, grabOutput := "", grabFiles := [],
          dockerExit := 1, dockerFiles := [] }
        "/cf.xml" "/out" defaultDockerParams).result
      = .error (.calledProcessError 1 none) := by
  decide

/-- Setup never raises a `ValueError`: its failures are process failures. -/
theorem setup_no_valueError (f : EPGFetcher) (fs : FS) (env : Env) (m : String) :
    (f.setup fs env).result ≠ .error (.valueError m) := by
  unfold EPGFetcher.setup setupNpm
  dsimp only
  split
  · simp
  · split
    · split <;> simp
    · split
      · split <;> simp
      · simp

/-- C1 (amended): when neither discriminant is populated, `fetch` does raise
the validation `ValueError`, but only after `setup()` has completed — the
side effects of such a call are exactly setup's side effects (workspace
directory creation, tool checkout, dependency install), not none.  And when
`site` is populated (in particular when BOTH discriminants are populated)
no validation error is ever raised: the call proceeds using the site. -/
theorem fetch_validation_after_setup (f : EPGFetcher) (fs : FS) (env : Env) (p : FetchParams) :
    (truthyStr p.site = false → truthyList p.channels = false →
      (f.fetch fs env p).events = (f.setup fs env).events ∧
      (f.fetch fs env p).fs = (f.setup fs env).fs ∧
      ((f.setup fs env).result = .ok () →
        (f.fetch fs env p).result = .error (.valueError valueErrorMsg)))
    ∧ (truthyStr p.site = true →
        ∀ m, (f.fetch fs env p).result ≠ .error (.valueError m)) := by
  constructor
  · intro hs hc
    unfold EPGFetcher.fetch
    dsimp only
    cases h : (f.setup fs env).result with
    | error e => simp [h]
    | ok u => simp [h, hs, hc]
  · intro hs m
    unfold EPGFetcher.fetch
    dsimp only
    cases h : (f.setup fs env).result with
    | error e =>
      simp only [h]
      intro heq
      injection heq with he
      subst he
      exact setup_no_valueError f fs env m h
    | ok u =>
      simp only [h, hs, if_true]
      unfold fetchRun
      dsimp only
      split <;> split <;> simp

/-- C1 witness: a concrete empty request raises the validation error. -/
theorem fetch_validation_after_setup_witness :
    ((EPGFetcher.init (some "/w") "").fetch { dirs := [], files := [] }
        { cwd := "/", cloneExit := 0, cloneOutput := "", npmInstallExit := 0,
          npmInstallOutput := "", grabExit := 0, grabOutput := "", grabFiles := [],
          dockerExit := 0, dockerFiles := [] }
        defaultFetchParams).result = .error (.valueError valueErrorMsg) :=
  ((fetch_validation_after_setup (EPGFetcher.init (some "/w") "") { dirs := [], files := [] }
      { cwd := "/", cloneExit := 0, cloneOutput := "", npmInstallExit := 0,
        npmInstallOutput := "", grabExit := 0, grabOutput := "", grabFiles := [],
        dockerExit := 0, dockerFiles := [] }
      defaultFetchParams).1 (by decide) (by decide)).2.2 (by decide)

/-- The artifact check of a zero-exit run: the returned path iff the joined
output path exists in the post-run filesystem; otherwise the file-not-found
error.  The file size plays no role. -/
theorem fetchRun_exit0 (f : EPGFetcher) (fs : FS) (env : Env) (p : FetchParams)
    (cmd0 : List String) (evs : List Event) (hg : env.grabExit = 0) :
    ((fetchRun f fs env p cmd0 evs).result = .ok (pathJoin f.epg_repo_path p.output_file) ↔
      (fetchRun f fs env p cmd0 evs).fs.existsPath (pathJoin f.epg_repo_path p.output_file) = true)
    ∧ ((fetchRun f fs env p cmd0 evs).fs.existsPath (pathJoin f.epg_repo_path p.output_file) = false →
      (fetchRun f fs env p cmd0 evs).result
        = .error (.fileNotFoundError (pathJoin f.epg_repo_path p.output_file))) := by
  unfold fetchRun
  dsimp only
  rw [hg]
  simp only [if_true]
  by_cases hex : (fs.addFiles env.grabFiles).existsPath (pathJoin f.epg_repo_path p.output_file) = true
  · simp [hex]
  · have hex2 : (fs.addFiles env.grabFiles).existsPath (pathJoin f.epg_repo_path p.output_file) = false := by
      simpa using hex
    simp [hex, hex2]

/-- C2 (amended): after the tool exits zero, `fetch` returns the output path
if and only if the expected output file EXISTS; when it is absent `fetch`
fails with `FileNotFoundError` (the artifact-missing failure).  The file's
size is never checked, so an existing empty file is returned as success. -/
theorem fetch_artifact_existence_check (f : EPGFetcher) (fs : FS) (env : Env) (p : FetchParams)
    (hc : env.cloneExit = 0) (hn : env.npmInstallExit = 0)
    (hmode : truthyStr p.site = true ∨ truthyList p.channels = true)
    (hg : env.grabExit = 0) :
    ((f.fetch fs env p).result = .ok (pathJoin f.epg_repo_path p.output_file) ↔
      (f.fetch fs env p).fs.existsPath (pathJoin f.epg_repo_path p.output_file) = true)
    ∧ ((f.fetch fs env p).fs.existsPath (pathJoin f.epg_repo_path p.output_file) = false →
      (f.fetch fs env p).result = .error (.fileNotFoundError (pathJoin f.epg_repo_path p.output_file))) := by
  have hok := setup_ok_of_exits f fs env hc hn
  have hpres := (setup_preserves_paths f fs env).2.1
  unfold EPGFetcher.fetch
  dsimp only
  rw [hok]
  cases hsite : truthyStr p.site with
  | true =>
    simp only [hsite, if_true]
    have h2 := fetchRun_exit0 (f.setup fs env).fetcher (f.setup fs env).fs env p
        (["npm", "run", "grab", "---"] ++ ["--site", p.site.getD ""]) (f.setup fs env).events hg
    rw [hpres] at h2
    exact h2
  | false =>
    rcases hmode with h | h
    · rw [hsite] at h; cases h
    · simp only [hsite, h, if_true, Bool.false_eq_true, if_false]
      have h2 := fetchRun_exit0 (f.setup fs env).fetcher
          ((f.setup fs env).fs.writeFile (f.setup fs env).fetcher.channels_file 1) env p
          (["npm", "run", "grab", "---"] ++ ["--channels", (f.setup fs env).fetcher.channels_file])
          ((f.setup fs env).events ++ [Event.writeChannels (f.setup fs env).fetcher.channels_file]) hg
      rw [hpres] at h2
      exact h2

/-- C2 witness: a concrete zero-exit site fetch, output present. -/
theorem fetch_artifact_existence_check_witness :
    ((EPGFetcher.fetch
        { work_dir := "/w", epg_repo_path := "/w/epg", channels_file := "/w/channels.xml",
          setup_done := true }
        { dirs := [], files := [] }
        { cwd := "/", cloneExit := 0, cloneOutput := "", npmInstallExit := 0,
          npmInstallOutput := "", grabExit := 0, grabOutput := "",
          grabFiles := [("/w/epg/guide.xml", 9)], dockerExit := 0, dockerFiles := [] }
        { defaultFetchParams with site := some "example.com" }).result
      = .ok (pathJoin "/w/epg" "guide.xml") ↔
     (EPGFetcher.fetch
        { work_dir := "/w", epg_repo_path := "/w/epg", channels_file := "/w/channels.xml",
          setup_done := true }
        { dirs := [], files := [] }
        { cwd := "/", cloneExit := 0, cloneOutput := "", npmInstallExit := 0,
          npmInstallOutput := "", grabExit := 0, grabOutput := "",
          grabFiles := [("/w/epg/guide.xml", 9)], dockerExit := 0, dockerFiles := [] }
        { defaultFetchParams with site := some "example.com" }).fs.existsPath
          (pathJoin "/w/epg" "guide.xml") = true) :=
  (fetch_artifact_existence_check
      { work_dir := "/w", epg_repo_path := "/w/epg", channels_file := "/w/channels.xml",
        setup_done := true }
      { dirs := [], files := [] }
      { cwd := "/", cloneExit := 0, cloneOutput := "", npmInstallExit := 0,
        npmInstallOutput := "", grabExit := 0, grabOutput := "",
        grabFiles := [("/w/epg/guide.xml", 9)], dockerExit := 0, dockerFiles := [] }
      { defaultFetchParams with site := some "example.com" }
      (by decide) (by decide) (Or.inl (by decide)) (by decide)).1

/-- A non-zero grab exit raises the process error carrying the captured
output (`capture_output=True` in local mode). -/
theorem fetchRun_exit_nonzero (f : EPGFetcher) (fs : FS) (env : Env) (p : FetchParams)
    (cmd0 : List String) (evs : List Event) (hg : env.grabExit ≠ 0) :
    (fetchRun f fs env p cmd0 evs).result
      = .error (.calledProcessError env.grabExit (some env.grabOutput)) := by
  unfold fetchRun
  dsimp only
  rw [if_neg hg]

/-- Success of a grab run is decided by the exit code alone: changing the
captured output never changes success into failure or vice versa. -/
theorem fetchRun_isOk_ignores_output (f : EPGFetcher) (fs : FS) (env : Env) (p : FetchParams)
    (cmd0 : List String) (evs : List Event) (o : String) :
    exceptIsOk (fetchRun f fs { env with grabOutput := o } p cmd0 evs).result
      = exceptIsOk (fetchRun f fs env p cmd0 evs).result := by
  unfold fetchRun
  dsimp only
  by_cases hg : env.grabExit = 0
  · rw [if_pos hg, if_pos hg]
  · rw [if_neg hg, if_neg hg]
    rfl

/-- Setup reads nothing from the grab part of the environment. -/
theorem setup_ignores_grab_env (f : EPGFetcher) (fs : FS) (env : Env) (o : String) :
    f.setup fs { env with grabOutput := o } = f.setup fs env := rfl

/-- C3 (amended): exit code zero is the sole success signal of the
invocation layer — the success of a fetch never depends on the tool's
output content.  In LOCAL mode a non-zero exit raises an error carrying the
captured output.  In CONTAINER mode the output is not captured at all
(`subprocess.run` without `capture_output`), so a non-zero container exit
raises an error whose payload carries no output. -/
theorem invocation_exit_code_contract (f : EPGFetcher) (fs : FS) (env : Env) (p : FetchParams)
    (cf od : String) (dp : DockerParams) :
    (env.cloneExit = 0 → env.npmInstallExit = 0 →
      (truthyStr p.site = true ∨ truthyList p.channels = true) → env.grabExit ≠ 0 →
      (f.fetch fs env p).result = .error (.calledProcessError env.grabExit (some env.grabOutput)))
    ∧ (∀ o, exceptIsOk (f.fetch fs { env with grabOutput := o } p).result
        = exceptIsOk (f.fetch fs env p).result)
    ∧ (fs.existsPath cf = true → env.dockerExit ≠ 0 →
      (f.fetch_with_docker fs env cf od dp).result
        = .error (.calledProcessError env.dockerExit none)) := by
  refine ⟨?_, ?_, ?_⟩
  · intro hc hn hmode hg
    have hok := setup_ok_of_exits f fs env hc hn
    unfold EPGFetcher.fetch
    dsimp only
    rw [hok]
    cases hsite : truthyStr p.site with
    | true =>
      simp only [hsite, if_true]
      exact fetchRun_exit_nonzero _ _ env p _ _ hg
    | false =>
      rcases hmode with h | h
      · rw [hsite] at h; cases h
      · simp only [hsite, h, if_true, Bool.false_eq_true, if_false]
        exact fetchRun_exit_nonzero _ _ env p _ _ hg
  · intro o
    unfold EPGFetcher.fetch
    rw [setup_ignores_grab_env]
    dsimp only
    cases h : (f.setup fs env).result with
    | error e => simp [h]
    | ok u =>
      simp only [h]
      cases hsite : truthyStr p.site with
      | true =>
        simp only [if_true]
        exact fetchRun_isOk_ignores_output _ _ env p _ _ o
      | false =>
        cases hch : truthyList p.channels with
        | true =>
          simp only [hsite, hch, if_true, Bool.false_eq_true, if_false]
          exact fetchRun_isOk_ignores_output _ _ env p _ _ o
        | false =>
          simp [hsite, hch]
  · intro hcf hd
    unfold EPGFetcher.fetch_with_docker
    dsimp only
    rw [if_pos hcf, if_neg hd]

/-- C3 witness: a concrete grab failure carries the captured output; a
concrete container failure carries none; output content does not affect
success. -/
theorem invocation_exit_code_contract_witness :
    ((EPGFetcher.init (some "/w") "").fetch { dirs := [], files := [("/cf.xml", 5)] }
        { cwd := "/", cloneExit := 0, cloneOutput := "", npmInstallExit := 0,
          npmInstallOutput := "", grabExit := 1, grabOutput := "boom", grabFiles := [],
          dockerExit := 1, dockerFiles := [] }
        { defaultFetchParams with site := some "a.com" }).result
      = .error (.calledProcessError 1 (some "boom")) ∧
    exceptIsOk ((EPGFetcher.init (some "/w") "").fetch { dirs := [], files := [("/cf.xml", 5)] }
        { cwd := "/", cloneExit := 0, cloneOutput := "", npmInstallExit := 0,
          npmInstallOutput := "", grabExit := 1, grabOutput := "other", grabFiles := [],
          dockerExit := 1, dockerFiles := [] }
        { defaultFetchParams with site := some "a.com" }).result
      = exceptIsOk ((EPGFetcher.init (some "/w") "").fetch { dirs := [], files := [("/cf.xml", 5)] }
        { cwd := "/", cloneExit := 0, cloneOutput := "", npmInstallExit := 0,
          npmInstallOutput := "", grabExit := 1, grabOutput := "boom", grabFiles := [],
          dockerExit := 1, dockerFiles := [] }
        { defaultFetchParams with site := some "a.com" }).result ∧
    ((EPGFetcher.init (some "/w") "").fetch_with_docker { dirs := [], files := [("/cf.xml", 5)] }
        { cwd := "/", cloneExit := 0, cloneOutput := "", npmInstallExit := 0,
          npmInstallOutput := "", grabExit := 1, grabOutput := "boom", grabFiles := [],
          dockerExit := 1, dockerFiles := [] }
        "/cf.xml" "/out" defaultDockerParams).result
      = .error (.calledProcessError 1 none) :=
  ⟨(invocation_exit_code_contract (EPGFetcher.init (some "/w") "")
        { dirs := [], files := [("/cf.xml", 5)] }
        { cwd := "/", cloneExit := 0, cloneOutput := "", npmInstallExit := 0,
          npmInstallOutput := "", grabExit := 1, grabOutput := "boom", grabFiles := [],
          dockerExit := 1, dockerFiles := [] }
        { defaultFetchParams with site := some "a.com" } "/cf.xml" "/out"
        defaultDockerParams).1 (by decide) (by decide) (Or.inl (by decide)) (by decide),
   (invocation_exit_code_contract (EPGFetcher.init (some "/w") "")
        { dirs := [], files := [("/cf.xml", 5)] }
        { cwd := "/", cloneExit := 0, cloneOutput := "", npmInstallExit := 0,
          npmInstallOutput := "", grabExit := 1, grabOutput := "boom", grabFiles := [],
          dockerExit := 1, dockerFiles := [] }
        { defaultFetchParams with site := some "a.com" } "/cf.xml" "/out"
        defaultDockerParams).2.1 "other",
   (invocation_exit_code_contract (EPGFetcher.init (some "/w") "")
        { dirs := [], files := [("/cf.xml", 5)] }
        { cwd := "/", cloneExit := 0, cloneOutput := "", npmInstallExit := 0,
          npmInstallOutput := "", grabExit := 1, grabOutput := "boom", grabFiles := [],
          dockerExit := 1, dockerFiles := [] }
        { defaultFetchParams with site := some "a.com" } "/cf.xml" "/out"
        defaultDockerParams).2.2 (by decide) (by decide)⟩

/-! ### Claim C10 — container-mode preconditions -/

/-- C10: in container mode, a missing channel-list file fails with the
file-not-found error before anything happens (no events at all, in
particular no container run); otherwise the only events are the output
directory creation FOLLOWED BY the container run. -/
theorem fetch_with_docker_precondition_order (f : EPGFetcher) (fs : FS) (env : Env)
    (cf od : String) (p : DockerParams) :
    (fs.existsPath cf = false →
      (f.fetch_with_docker fs env cf od p).result = .error (.fileNotFoundError cf) ∧
      (f.fetch_with_docker fs env cf od p).events = [])
    ∧ (fs.existsPath cf = true →
      (f.fetch_with_docker fs env cf od p).events
        = [Event.makedirs od, Event.dockerRun (buildDockerCmd env.cwd cf od p)]) := by
  constructor
  · intro h
    unfold EPGFetcher.fetch_with_docker
    dsimp only
    simp [h]
  · intro h
    unfold EPGFetcher.fetch_with_docker
    dsimp only
    rw [if_pos h]
    split
    · split <;> rfl
    · rfl

/-- C10 witness: a missing channel-list file yields the file-not-found
error and no events; a present one yields exactly mkdir-then-docker-run. -/
theorem fetch_with_docker_precondition_order_witness :
    (((EPGFetcher.init (some "/w") "").fetch_with_docker { dirs := [], files := [] }
        { cwd := "/", cloneExit := 0, cloneOutput := "", npmInstallExit := 0,
          npmInstallOutput := "", grabExit := 0, grabOutput := "", grabFiles := [],
          dockerExit := 0, dockerFiles := [] }
        "/cf.xml" "/out" defaultDockerParams).result = .error (.fileNotFoundError "/cf.xml") ∧
     ((EPGFetcher.init (some "/w") "").fetch_with_docker { dirs := [], files := [] }
        { cwd := "/", cloneExit := 0, cloneOutput := "", npmInstallExit := 0,
          npmInstallOutput := "", grabExit := 0, grabOutput := "", grabFiles := [],
          dockerExit := 0, dockerFiles := [] }
        "/cf.xml" "/out" defaultDockerParams).events = []) ∧
    ((EPGFetcher.init (some "/w") "").fetch_with_docker { dirs := [], files := [("/cf.xml", 5)] }
        { cwd := "/", cloneExit := 0, cloneOutput := "", npmInstallExit := 0,
          npmInstallOutput := "", grabExit := 0, grabOutput := "", grabFiles := [],
          dockerExit := 0, dockerFiles := [] }
        "/cf.xml" "/out" defaultDockerParams).events
      = [Event.makedirs "/out",
         Event.dockerRun (buildDockerCmd "/" "/cf.xml" "/out" defaultDockerParams)] :=
  ⟨(fetch_with_docker_precondition_order (EPGFetcher.init (some "/w") "")
        { dirs := [], files := [] }
        { cwd := "/", cloneExit := 0, cloneOutput := "", npmInstallExit := 0,
          npmInstallOutput := "", grabExit := 0, grabOutput := "", grabFiles := [],
          dockerExit := 0, dockerFiles := [] }
        "/cf.xml" "/out" defaultDockerParams).1 (by decide),
   (fetch_with_docker_precondition_order (EPGFetcher.init (some "/w") "")
        { dirs := [], files := [("/cf.xml", 5)] }
        { cwd := "/", cloneExit := 0, cloneOutput := "", npmInstallExit := 0,
          npmInstallOutput := "", grabExit := 0, grabOutput := "", grabFiles := [],
          dockerExit := 0, dockerFiles := [] }
        "/cf.xml" "/out" defaultDockerParams).2 (by decide)⟩

/-! ### Claim C6 — tool-cache setup idempotence -/

/-- Recognizer for the source-fetch (git clone) side effect. -/
def isCloneEvent : Event → Bool
  | .gitClone _ => true
  | _ => false

/-- Number of source-fetch events in a trace. -/
def cloneCount (evs : List Event) : Nat := (evs.filter isCloneEvent).length

/-- A sequence of `n` setup invocations threading the fetcher object and the
filesystem (as across repeated `fetch` calls on one fetcher, or fresh
fetchers sharing the same working directory after state is threaded). -/
def setupSeq : Nat → EPGFetcher → FS → Env → EPGFetcher × FS × List Event
  | 0, f, fs, _ => (f, fs, [])
  | n + 1, f, fs, env =>
    let o := f.setup fs env
    let r := setupSeq n o.fetcher o.fs env
    (r.1, r.2.1, o.events ++ r.2.2)

/-- The states from which setup never clones again: the object flag is set,
or the tool checkout is already present at the cache path. -/
def setupGood (f : EPGFetcher) (fs : FS) : Prop :=
  f.setup_done = true ∨ fs.existsPath f.epg_repo_path = true

/-- Clone counts add over concatenated traces. -/
theorem cloneCount_append (a b : List Event) :
    cloneCount (a ++ b) = cloneCount a + cloneCount b := by
  simp [cloneCount, List.filter_append]

/-- A setup whose flag is already set is a complete no-op. -/
theorem setup_done_noop (f : EPGFetcher) (fs : FS) (env : Env) (h : f.setup_done = true) :
    f.setup fs env = { result := .ok (), fetcher := f, fs := fs, events := [] } := by
  unfold EPGFetcher.setup
  rw [if_pos h]

/-- From a good state, setup performs no source fetch and stays good. -/
theorem setup_good_no_clone (f : EPGFetcher) (fs : FS) (env : Env) (h : setupGood f fs) :
    cloneCount (f.setup fs env).events = 0 ∧
    setupGood (f.setup fs env).fetcher (f.setup fs env).fs := by
  by_cases hd : f.setup_done = true
  · rw [setup_done_noop f fs env hd]
    exact ⟨rfl, Or.inl hd⟩
  · rcases h with hd2 | hr
    · exact absurd hd2 hd
    · have hr1 : (fs.mkdir f.work_dir).existsPath f.epg_repo_path = true :=
        existsPath_mkdir_of fs f.work_dir f.epg_repo_path hr
      unfold EPGFetcher.setup setupNpm
      dsimp only
      rw [if_neg hd, if_pos hr1]
      split
      · exact ⟨rfl, Or.inl rfl⟩
      · exact ⟨rfl, Or.inr hr1⟩

/-- When the source fetch succeeds if attempted, one setup call clones at
most once and leaves a good state. -/
theorem setup_clone_le_one (f : EPGFetcher) (fs : FS) (env : Env) (hc : env.cloneExit = 0) :
    cloneCount (f.setup fs env).events ≤ 1 ∧
    setupGood (f.setup fs env).fetcher (f.setup fs env).fs := by
  by_cases hd : f.setup_done = true
  · rw [setup_done_noop f fs env hd]
    exact ⟨Nat.zero_le 1, Or.inl hd⟩
  · unfold EPGFetcher.setup setupNpm
    dsimp only
    rw [if_neg hd]
    by_cases hr1 : (fs.mkdir f.work_dir).existsPath f.epg_repo_path = true
    · rw [if_pos hr1]
      split
      · refine ⟨?_, Or.inl rfl⟩
        simp [cloneCount, isCloneEvent]
      · refine ⟨?_, Or.inr hr1⟩
        simp [cloneCount, isCloneEvent]
    · rw [if_neg hr1, if_pos hc]
      split
      · refine ⟨?_, Or.inl rfl⟩
        simp [cloneCount, isCloneEvent]
      · refine ⟨?_, Or.inr (existsPath_mkdir_self (fs.mkdir f.work_dir) f.epg_repo_path)⟩
        simp [cloneCount, isCloneEvent]

/-- From a good state, any number of setup invocations never clone. -/
theorem setupSeq_good_no_clone (n : Nat) (f : EPGFetcher) (fs : FS) (env : Env)
    (h : setupGood f fs) :
    cloneCount (setupSeq n f fs env).2.2 = 0 := by
  induction n generalizing f fs with
  | zero => rfl
  | succ m ih =>
    have h1 := setup_good_no_clone f fs env h
    dsimp only [setupSeq]
    rw [cloneCount_append, h1.1, ih _ _ h1.2]

/-- C6: tool-cache setup is idempotent.  If the tool checkout is already
present at the cache path, any number of setup invocations sharing that
state perform NO source fetch at all; and in general (when the source fetch
succeeds when attempted) `n` sequential setup invocations perform the
source-fetch step at most once. -/
theorem setup_refetches_at_most_once (n : Nat) (f : EPGFetcher) (fs : FS) (env : Env) :
    (fs.existsPath f.epg_repo_path = true →
      cloneCount (setupSeq n f fs env).2.2 = 0)
    ∧ (env.cloneExit = 0 →
      cloneCount (setupSeq n f fs env).2.2 ≤ 1) := by
  constructor
  · intro hr
    exact setupSeq_good_no_clone n f fs env (Or.inr hr)
  · intro hc
    cases n with
    | zero => exact Nat.zero_le 1
    | succ m =>
      dsimp only [setupSeq]
      rw [cloneCount_append]
      have h1 := setup_clone_le_one f fs env hc
      rw [setupSeq_good_no_clone m _ _ env h1.2]
      simpa using h1.1

/-- C6 witness: three sequential setups over a populated cache never clone;
three sequential setups from scratch clone at most once. -/
theorem setup_refetches_at_most_once_witness :
    cloneCount (setupSeq 3 (EPGFetcher.init (some "/w") "")
        { dirs := ["/w", "/w/epg"], files := [] }
        { cwd := "/", cloneExit := 0, cloneOutput := "", npmInstallExit := 0,
          npmInstallOutput := "", grabExit := 0, grabOutput := "", grabFiles := [],
          dockerExit := 0, dockerFiles := [] }).2.2 = 0 ∧
    cloneCount (setupSeq 3 (EPGFetcher.init (some "/w") "") { dirs := [], files := [] }
        { cwd := "/", cloneExit := 0, cloneOutput := "", npmInstallExit := 0,
          npmInstallOutput := "", grabExit := 0, grabOutput := "", grabFiles := [],
          dockerExit := 0, dockerFiles := [] }).2.2 ≤ 1 :=
  ⟨(setup_refetches_at_most_once 3 (EPGFetcher.init (some "/w") "")
        { dirs := ["/w", "/w/epg"], files := [] }
        { cwd := "/", cloneExit := 0, cloneOutput := "", npmInstallExit := 0,
          npmInstallOutput := "", grabExit := 0, grabOutput := "", grabFiles := [],
          dockerExit := 0, dockerFiles := [] }).1 (by decide),
   (setup_refetches_at_most_once 3 (EPGFetcher.init (some "/w") "") { dirs := [], files := [] }
        { cwd := "/", cloneExit := 0, cloneOutput := "", npmInstallExit := 0,
          npmInstallOutput := "", grabExit := 0, grabOutput := "", grabFiles := [],
          dockerExit := 0, dockerFiles := [] }).2 (by decide)⟩

/-! ### Claim C5 — channel-list document round trip -/

/-- A serialized channel element parses back to the channel, provided the
display name is non-empty (empty text would be lost by the serializer). -/
theorem parse_norm_channel (c : EPGChannel) (h : c.name ≠ "") :
    parseChannel (normTree c.to_xml_element) = some c := by
  have hb : (c.name == "") = false := by
    simpa using h
  simp [EPGChannel.to_xml_element, normTree, normTrees, normText, hb, parseChannel, List.lookup]

/-- The serialized child list parses back to the channel list, in order. -/
theorem parse_norm_channels (cs : List EPGChannel) (h : ∀ c ∈ cs, c.name ≠ "") :
    List.mapM parseChannel (normTrees (cs.map EPGChannel.to_xml_element)) = some cs := by
  induction cs with
  | nil => rfl
  | cons c cs2 ih =>
    simp only [List.map_cons, normTrees, List.mapM_cons]
    rw [parse_norm_channel c (h c (by simp))]
    rw [ih (fun d hd => h d (by simp [hd]))]
    rfl

/-- C5: for every valid channel list (all fields present and non-empty),
serializing to the channel-list document (root `channels`, one `channel`
child per entry with the four attributes and the display name as text, in
insertion order, indented as written by `create_channels_file`) and parsing
the document back yields the same channel count and the same field values:
the exact original list. -/
theorem channels_doc_roundtrip (cs : List EPGChannel)
    (h : ∀ c ∈ cs, c.site ≠ "" ∧ c.lang ≠ "" ∧ c.xmltv_id ≠ "" ∧ c.site_id ≠ "" ∧ c.name ≠ "") :
    parseChannelsDoc (normTree (channelsDocOf cs)) = some cs := by
  have hn : ∀ c ∈ cs, c.name ≠ "" := fun c hc => (h c hc).2.2.2.2
  unfold channelsDocOf createChannelsRoot indentDoc
  cases cs with
  | nil => rfl
  | cons c cs2 =>
    simp only [List.map_cons, List.isEmpty_cons, if_false, Bool.false_eq_true]
    simp only [normTree, normText, parseChannelsDoc]
    exact parse_norm_channels (c :: cs2) hn

/-- C5 witness: a concrete two-channel list round-trips. -/
theorem channels_doc_roundtrip_witness :
    parseChannelsDoc (normTree (channelsDocOf
        [{ site := "a.com", lang := "en", xmltv_id := "A.tv", site_id := "CH_A", name := "Alpha TV" },
         { site := "b.org", lang := "ko", xmltv_id := "B.tv", site_id := "7", name := "Beta" }]))
      = some
        [{ site := "a.com", lang := "en", xmltv_id := "A.tv", site_id := "CH_A", name := "Alpha TV" },
         { site := "b.org", lang := "ko", xmltv_id := "B.tv", site_id := "7", name := "Beta" }] :=
  channels_doc_roundtrip
    [{ site := "a.com", lang := "en", xmltv_id := "A.tv", site_id := "CH_A", name := "Alpha TV" },
     { site := "b.org", lang := "ko", xmltv_id := "B.tv", site_id := "7", name := "Beta" }]
    (by decide)

/-! ### Claim C9 — the artifact lives inside the workspace -/

/-- A string with the `/tmp` path prefix is not empty. -/
theorem strStartsWith_ne_empty (s : String) (h : strStartsWith s "/tmp" = true) :
    (s == "") = false := by
  cases h2 : (s == "") with
  | false => rfl
  | true =>
    exfalso
    have hs : s = "" := eq_of_beq h2
    subst hs
    exact absurd h (by decide)

/-- Joining a relative part onto a non-empty base without a trailing slash
inserts a separator. -/
theorem pathJoin_rel (a b : String) (hb : strStartsWith b "/" = false)
    (ha : (a == "") = false) (hs : endsWithSlash a = false) :
    pathJoin a b = a ++ ("/" ++ b) := by
  unfold pathJoin
  simp [hb, ha, hs]

/-- A joined path is never the empty string. -/
theorem append_slash_ne_empty (a m : String) : ((a ++ ("/" ++ m)) == "") = false := by
  apply beq_eq_false_iff_ne.mpr
  intro he
  have hd := congrArg String.data he
  have hd2 : a.data ++ ('/' :: m.data) = [] := hd
  simp at hd2

/-- The tool checkout path `wd/epg` does not end with a separator. -/
theorem endsWithSlash_append_epg (a : String) :
    endsWithSlash (a ++ ("/" ++ "epg")) = false := by
  unfold endsWithSlash
  have hd : (a ++ ("/" ++ "epg")).data = a.data ++ ['/', 'e', 'p', 'g'] := rfl
  rw [hd]
  rw [List.getLast?_append_of_ne_nil a.data (by decide)]
  decide

/-- Anything of the form `a/m` starts with `a/`. -/
theorem strStartsWith_slash_mid (a m : String) :
    strStartsWith (a ++ ("/" ++ m)) (a ++ "/") = true := by
  unfold strStartsWith
  rw [List.isPrefixOf_iff_prefix]
  refine ⟨m.data, ?_⟩
  have h1 : (a ++ "/").data = a.data ++ ['/'] := rfl
  have h2 : (a ++ ("/" ++ m)).data = a.data ++ (['/'] ++ m.data) := rfl
  rw [h1, h2, List.append_assoc]

/-- A non-empty caller-supplied working directory is used as-is. -/
theorem resolveWorkDir_some (w t : String) (hne : (w == "") = false) :
    resolveWorkDir (some w) t = w := by
  unfold resolveWorkDir
  simp [hne]

/-- A fresh setup always creates the working directory. -/
theorem setup_fs_work_dir (f : EPGFetcher) (fs : FS) (env : Env) (hd : f.setup_done = false) :
    (f.setup fs env).fs.existsPath f.work_dir = true := by
  unfold EPGFetcher.setup setupNpm
  dsimp only
  rw [if_neg (by simp [hd])]
  split
  · split <;> exact existsPath_mkdir_self fs f.work_dir
  · split
    · split <;> exact existsPath_mkdir_of (fs.mkdir f.work_dir) f.epg_repo_path f.work_dir
          (existsPath_mkdir_self fs f.work_dir)
    · exact existsPath_mkdir_self fs f.work_dir

/-- A grab run leaves the fetcher unchanged and only adds the files the
tool produced. -/
theorem fetchRun_fetcher_fs (f : EPGFetcher) (fs : FS) (env : Env) (p : FetchParams)
    (cmd0 : List String) (evs : List Event) :
    (fetchRun f fs env p cmd0 evs).fetcher = f ∧
    (fetchRun f fs env p cmd0 evs).fs = fs.addFiles env.grabFiles := by
  unfold fetchRun
  dsimp only
  split
  · split <;> exact ⟨rfl, rfl⟩
  · exact ⟨rfl, rfl⟩

/-- A successful grab run returns exactly the joined output path. -/
theorem fetchRun_ok_value (f : EPGFetcher) (fs : FS) (env : Env) (p : FetchParams)
    (cmd0 : List String) (evs : List Event) (rp : String) (hg : env.grabExit = 0)
    (h : (fetchRun f fs env p cmd0 evs).result = .ok rp) :
    rp = pathJoin f.epg_repo_path p.output_file := by
  unfold fetchRun at h
  dsimp only at h
  rw [if_pos hg] at h
  split at h
  · injection h with h2
    exact h2.symm
  · cases h

/-- The common tail of C9, independent of the site/channels mode: a grab run
that succeeds returns the join of the checkout path with the output file,
that path is under the working directory, and cleanup of a `/tmp`-resident
working directory removes it. -/
theorem fetchRun_artifact_cleanup (f1 : EPGFetcher) (fs1 : FS) (env : Env)
    (p : FetchParams) (cmd0 : List String) (evs : List Event) (rp wd : String)
    (hg : env.grabExit = 0)
    (hwdf : f1.work_dir = wd)
    (hrepof : f1.epg_repo_path = pathJoin wd "epg")
    (hw : strStartsWith wd "/tmp" = true)
    (hsl : endsWithSlash wd = false)
    (hrel : strStartsWith p.output_file "/" = false)
    (hne : (wd == "") = false)
    (hfs : fs1.existsPath wd = true)
    (hres : (fetchRun f1 fs1 env p cmd0 evs).result = .ok rp) :
    rp = pathJoin (pathJoin wd "epg") p.output_file ∧
    isUnderDir wd rp = true ∧
    ((fetchRun f1 fs1 env p cmd0 evs).fetcher.cleanup
        (fetchRun f1 fs1 env p cmd0 evs).fs).1.existsPath rp = false := by
  have hval := fetchRun_ok_value f1 fs1 env p cmd0 evs rp hg hres
  rw [hrepof] at hval
  -- path shape
  have hj1 : pathJoin wd "epg" = wd ++ ("/" ++ "epg") :=
    pathJoin_rel wd "epg" (by decide) hne hsl
  have hj2 : pathJoin (pathJoin wd "epg") p.output_file
      = (wd ++ ("/" ++ "epg")) ++ ("/" ++ p.output_file) := by
    rw [hj1]
    exact pathJoin_rel (wd ++ ("/" ++ "epg")) p.output_file hrel
      (append_slash_ne_empty wd "epg") (endsWithSlash_append_epg wd)
  have hrp2 : rp = wd ++ ("/" ++ ("epg" ++ ("/" ++ p.output_file))) := by
    rw [hval, hj2, String.append_assoc, String.append_assoc]
  have hunder : isUnderDir wd rp = true := by
    unfold isUnderDir
    rw [hrp2, strStartsWith_slash_mid wd ("epg" ++ ("/" ++ p.output_file))]
    exact Bool.or_true _
  refine ⟨hval, hunder, ?_⟩
  rw [(fetchRun_fetcher_fs f1 fs1 env p cmd0 evs).1,
      (fetchRun_fetcher_fs f1 fs1 env p cmd0 evs).2]
  have hex : (fs1.addFiles env.grabFiles).existsPath wd = true :=
    existsPath_addFiles_of fs1 env.grabFiles wd hfs
  unfold EPGFetcher.cleanup
  rw [hwdf, hex, hw]
  simp only [Bool.and_self, if_true]
  exact existsPath_removeTree_of_under _ wd rp hunder

/-- C9: every successful local-mode fetch with a relative output filename —
site-based or channel-list-based — on a fetcher constructed with a
`/tmp`-resident working directory (as the default `mkdtemp` produces)
returns exactly `work_dir/epg/<output_file>`, the join of the tool checkout
directory with the filename.  That path lies under the working directory
that `cleanup` removes, and after `cleanup` runs it no longer exists. -/
theorem fetch_artifact_inside_workspace (wd tmpd : String) (fs : FS) (env : Env)
    (p : FetchParams) (rp : String)
    (hw : strStartsWith wd "/tmp" = true)
    (hsl : endsWithSlash wd = false)
    (hrel : strStartsWith p.output_file "/" = false)
    (hmode : truthyStr p.site = true ∨ truthyList p.channels = true)
    (hc : env.cloneExit = 0) (hn : env.npmInstallExit = 0) (hg : env.grabExit = 0)
    (hres : ((EPGFetcher.init (some wd) tmpd).fetch fs env p).result = .ok rp) :
    rp = pathJoin (pathJoin wd "epg") p.output_file ∧
    isUnderDir wd rp = true ∧
    (((EPGFetcher.init (some wd) tmpd).fetch fs env p).fetcher.cleanup
        ((EPGFetcher.init (some wd) tmpd).fetch fs env p).fs).1.existsPath rp = false := by
  have hne : (wd == "") = false := strStartsWith_ne_empty wd hw
  have hwd : (EPGFetcher.init (some wd) tmpd).work_dir = wd := resolveWorkDir_some wd tmpd hne
  have hrepo : (EPGFetcher.init (some wd) tmpd).epg_repo_path = pathJoin wd "epg" := by
    show pathJoin (resolveWorkDir (some wd) tmpd) "epg" = pathJoin wd "epg"
    rw [resolveWorkDir_some wd tmpd hne]
  have hsd : (EPGFetcher.init (some wd) tmpd).setup_done = false := rfl
  have hok := setup_ok_of_exits (EPGFetcher.init (some wd) tmpd) fs env hc hn
  have hwdf : ((EPGFetcher.init (some wd) tmpd).setup fs env).fetcher.work_dir = wd := by
    rw [(setup_preserves_paths (EPGFetcher.init (some wd) tmpd) fs env).1, hwd]
  have hrepof : ((EPGFetcher.init (some wd) tmpd).setup fs env).fetcher.epg_repo_path
      = pathJoin wd "epg" := by
    rw [(setup_preserves_paths (EPGFetcher.init (some wd) tmpd) fs env).2.1, hrepo]
  have hfs0 : ((EPGFetcher.init (some wd) tmpd).setup fs env).fs.existsPath wd = true := by
    have h0 := setup_fs_work_dir (EPGFetcher.init (some wd) tmpd) fs env hsd
    rw [hwd] at h0
    exact h0
  -- reduce the fetch in the hypothesis and in the goal to its fetchRun core
  unfold EPGFetcher.fetch at hres ⊢
  dsimp only at hres ⊢
  rw [hok] at hres ⊢
  cases hsite : truthyStr p.site with
  | true =>
    simp only [hsite, if_true] at hres ⊢
    exact fetchRun_artifact_cleanup _ _ env p _ _ rp wd hg hwdf hrepof hw hsl hrel hne hfs0 hres
  | false =>
    rcases hmode with h | h
    · rw [hsite] at h; cases h
    · simp only [hsite, h, if_true, Bool.false_eq_true, if_false] at hres ⊢
      exact fetchRun_artifact_cleanup _ _ env p _ _ rp wd hg hwdf hrepof hw hsl hrel hne
        (existsPath_writeFile_of _ _ _ wd hfs0) hres

/-- C9 witness: a concrete successful site-mode fetch and a concrete
successful channel-list-mode fetch, both under `/tmp/epg_x`: each returns
the joined path, and the path is gone after cleanup. -/
theorem fetch_artifact_inside_workspace_witness :
    ("/tmp/epg_x/epg/guide.xml" = pathJoin (pathJoin "/tmp/epg_x" "epg") "guide.xml" ∧
     isUnderDir "/tmp/epg_x" "/tmp/epg_x/epg/guide.xml" = true ∧
     (((EPGFetcher.init (some "/tmp/epg_x") "").fetch { dirs := [], files := [] }
        { cwd := "/", cloneExit := 0, cloneOutput := "", npmInstallExit := 0,
          npmInstallOutput := "", grabExit := 0, grabOutput := "",
          grabFiles := [("/tmp/epg_x/epg/guide.xml", 9)], dockerExit := 0, dockerFiles := [] }
        { defaultFetchParams with site := some "a.com" }).fetcher.cleanup
      ((EPGFetcher.init (some "/tmp/epg_x") "").fetch { dirs := [], files := [] }
        { cwd := "/", cloneExit := 0, cloneOutput := "", npmInstallExit := 0,
          npmInstallOutput := "", grabExit := 0, grabOutput := "",
          grabFiles := [("/tmp/epg_x/epg/guide.xml", 9)], dockerExit := 0, dockerFiles := [] }
        { defaultFetchParams with site := some "a.com" }).fs).1.existsPath
      "/tmp/epg_x/epg/guide.xml" = false) ∧
    ("/tmp/epg_x/epg/guide.xml" = pathJoin (pathJoin "/tmp/epg_x" "epg") "guide.xml" ∧
     isUnderDir "/tmp/epg_x" "/tmp/epg_x/epg/guide.xml" = true ∧
     (((EPGFetcher.init (some "/tmp/epg_x") "").fetch { dirs := [], files := [] }
        { cwd := "/", cloneExit := 0, cloneOutput := "", npmInstallExit := 0,
          npmInstallOutput := "", grabExit := 0, grabOutput := "",
          grabFiles := [("/tmp/epg_x/epg/guide.xml", 9)], dockerExit := 0, dockerFiles := [] }
        { defaultFetchParams with
            channels := some [{ site := "a.com", lang := "en", xmltv_id := "A.tv",
                                site_id := "1", name := "A" }] }).fetcher.cleanup
      ((EPGFetcher.init (some "/tmp/epg_x") "").fetch { dirs := [], files := [] }
        { cwd := "/", cloneExit := 0, cloneOutput := "", npmInstallExit := 0,
          npmInstallOutput := "", grabExit := 0, grabOutput := "",
          grabFiles := [("/tmp/epg_x/epg/guide.xml", 9)], dockerExit := 0, dockerFiles := [] }
        { defaultFetchParams with
            channels := some [{ site := "a.com", lang := "en", xmltv_id := "A.tv",
                                site_id := "1", name := "A" }] }).fs).1.existsPath
      "/tmp/epg_x/epg/guide.xml" = false) :=
  ⟨fetch_artifact_inside_workspace "/tmp/epg_x" "" { dirs := [], files := [] }
    { cwd := "/", cloneExit := 0, cloneOutput := "", npmInstallExit := 0,
      npmInstallOutput := "", grabExit := 0, grabOutput := "",
      grabFiles := [("/tmp/epg_x/epg/guide.xml", 9)], dockerExit := 0, dockerFiles := [] }
    { defaultFetchParams with site := some "a.com" } "/tmp/epg_x/epg/guide.xml"
    (by decide) (by decide) (by decide) (Or.inl (by decide)) (by decide) (by decide)
    (by decide) (by decide),
   fetch_artifact_inside_workspace "/tmp/epg_x" "" { dirs := [], files := [] }
    { cwd := "/", cloneExit := 0, cloneOutput := "", npmInstallExit := 0,
      npmInstallOutput := "", grabExit := 0, grabOutput := "",
      grabFiles := [("/tmp/epg_x/epg/guide.xml", 9)], dockerExit := 0, dockerFiles := [] }
    { defaultFetchParams with
        channels := some [{ site := "a.com", lang := "en", xmltv_id := "A.tv",
                            site_id := "1", name := "A" }] } "/tmp/epg_x/epg/guide.xml"
    (by decide) (by decide) (by decide) (Or.inr (by decide)) (by decide) (by decide)
    (by decide) (by decide)⟩
